import Mathlib

/-!
Shallow embedding of the `DorisAgent` HTTP client class from
`examples/nodejs_agent_example.js` of the doris-sga repository.

The class is a thin wrapper over an HTTP API: every method builds one
HTTP request (JSON body or multipart form), hands it to the underlying
axios client, and returns the parsed response body (or a field of it).
We model JSON values, requests and form parts explicitly, the network as
an oracle `Transport` mapping a request to either a response or a
JavaScript error value, and each method as a function that returns both
its result and the (unchanged) receiver object, mirroring the absence of
any assignment to `this` in the method bodies.
-/

/-- A JSON value, as produced by serializing a JavaScript object. -/
inductive Json where
  | null : Json
  | bool : Bool → Json
  | num : Int → Json
  | str : String → Json
  | arr : List Json → Json
  | obj : List (String × Json) → Json

/-- Look a key up in the field list of a JSON object. -/
def lookupField : List (String × Json) → String → Option Json
  | [], _ => none
  | (k, v) :: rest, key => if k = key then some v else lookupField rest key

/-- JavaScript property access `j.key` on a parsed JSON value: a present
field of an object yields its value, anything else yields `undefined`,
modelled as `none`. -/
def Json.getField : Json → String → Option Json
  | Json.obj fields, key => lookupField fields key
  | _, _ => none

/-- Whether serializing the value would emit the given field. -/
def Json.hasField (j : Json) (key : String) : Bool :=
  (j.getField key).isSome

/-- One value of a multipart form part: either a streamed file (we only
track the path handed to `fs.createReadStream`) or a scalar text field. -/
inductive FormValue where
  | fileStream : String → FormValue
  | text : String → FormValue

/-- One part of a multipart form, as appended by `form.append(name, value)`. -/
structure FormPart where
  name : String
  value : FormValue

/-- Whether a form part carries a streamed file. -/
def FormPart.isFile : FormPart → Bool
  | ⟨_, FormValue.fileStream _⟩ => true
  | ⟨_, FormValue.text _⟩ => false

/-- HTTP method of a request issued by the client. -/
inductive Method where
  | get : Method
  | post : Method
  | delete : Method

/-- Body of an outgoing request: a JSON document, a multipart form, or
nothing (for GET requests). -/
inductive Body where
  | empty : Body
  | jsonBody : Json → Body
  | multipart : List FormPart → Body

/-- An HTTP request as handed to the axios instance: method, path
relative to the configured base URL, and body. -/
structure HttpRequest where
  method : Method
  path : String
  body : Body

/-- A JavaScript error value as thrown by axios: its kind (transport
failure, non-2xx response, ...) and message. The client never inspects
these, so we keep them abstract as two strings. -/
structure JsError where
  kind : String
  message : String

/-- An axios response; the client only ever reads `response.data`, the
parsed JSON body. -/
structure HttpResponse where
  data : Json

/-- The network, as an oracle: each request either produces a response
or makes the awaited promise reject with an error. -/
def Transport : Type := HttpRequest → Except JsError HttpResponse

/-- The axios instance created by `axios.create({baseURL, timeout})`:
pure configuration storage, no I/O and no URL validation happens here. -/
structure AxiosClient where
  baseURL : String
  timeout : Nat

/-- `axios.create` just records the configuration. -/
def axiosCreate (baseURL : String) (timeout : Nat) : AxiosClient :=
  { baseURL := baseURL, timeout := timeout }

/-- JavaScript `s.replace(/\/$/, '')` on the character sequence of `s`:
the regex matches exactly a final slash character, which is replaced by
the empty string; strings not ending in a slash are left unchanged. -/
def jsReplaceTrailingSlash : List Char → List Char
  | [] => []
  | [c] => if c = '/' then [] else [c]
  | c :: c2 :: cs => c :: jsReplaceTrailingSlash (c2 :: cs)

/-- `baseUrl.replace(/\/$/, '')` lifted back to `String`. -/
def stripTrailingSlash (s : String) : String :=
  String.mk (jsReplaceTrailingSlash s.data)

/-- The `DorisAgent` object: the fields set by the constructor. -/
structure DorisAgent where
  baseUrl : String
  apiKey : Option String
  client : AxiosClient

/-- The constructor body of `DorisAgent`: strip the trailing slash from
the base URL, store the optional API key, and create the axios instance
with a 60000 ms timeout. -/
def DorisAgent.mkAgent (baseUrl : String) (apiKey : Option String) : DorisAgent :=
  let b := stripTrailingSlash baseUrl
  { baseUrl := b, apiKey := apiKey, client := axiosCreate b 60000 }

/-- Constructing the agent, instrumented for effects: the result is the
possibility of a thrown error (the body consists of a total string
replace, a field store and `axios.create`, none of which can throw on
string input, hence always `Except.ok`) together with the list of HTTP
requests issued during construction (none: no method of the axios
instance is called). -/
def DorisAgent.construct (baseUrl : String) (apiKey : Option String) :
    Except JsError DorisAgent × List HttpRequest :=
  (Except.ok (DorisAgent.mkAgent baseUrl apiKey), [])

/-- JavaScript truthiness of a string-or-null value: `null`, `undefined`
and the empty string are falsy, every other string is truthy. -/
def jsTruthy : Option String → Bool
  | none => false
  | some s => s != ""

/-- JavaScript `a || b` on string-or-null values. -/
def jsOr (a b : Option String) : Option String :=
  if jsTruthy a then a else b

/-- JavaScript `Boolean.prototype.toString`. -/
def jsBoolToString (b : Bool) : String :=
  if b then "true" else "false"

/-- The default of the `model` parameter of `ask`, hardcoded in the
method signature. -/
def defaultModel : String := "deepseek-chat"

/-- The JSON payload built by `ask`: start from an object holding the
question under `query`; let `key` be the per-call API key if truthy,
else the constructor key; if `key` is truthy, also set `api_key` to it
and `model` to the model parameter (the caller argument, or the default
`deepseek-chat` when omitted). -/
def DorisAgent.askPayload (self : DorisAgent) (question : String)
    (apiKey : Option String) (modelArg : Option String) : Json :=
  let model := modelArg.getD defaultModel
  match jsOr apiKey self.apiKey with
  | some k =>
      if k != "" then
        Json.obj [("query", Json.str question), ("api_key", Json.str k),
                  ("model", Json.str model)]
      else
        Json.obj [("query", Json.str question)]
  | none => Json.obj [("query", Json.str question)]

/-- The request issued by `ask`. -/
def askRequest (self : DorisAgent) (question : String)
    (apiKey : Option String) (modelArg : Option String) : HttpRequest :=
  { method := Method.post, path := "/api/query/natural",
    body := Body.jsonBody (self.askPayload question apiKey modelArg) }

/-- The request issued by `healthCheck`. -/
def healthRequest : HttpRequest :=
  { method := Method.get, path := "/api/health", body := Body.empty }

/-- The multipart form built by `uploadExcel`: a streamed file part, the
table name, and the create-table flag rendered by `toString` (the flag
defaults to `true` when the caller omits it). -/
def uploadForm (filePath tableName : String) (createTable : Option Bool) :
    List FormPart :=
  [⟨"file", FormValue.fileStream filePath⟩,
   ⟨"table_name", FormValue.text tableName⟩,
   ⟨"create_table", FormValue.text (jsBoolToString (createTable.getD true))⟩]

/-- The request issued by `uploadExcel`. -/
def uploadRequest (filePath tableName : String) (createTable : Option Bool) :
    HttpRequest :=
  { method := Method.post, path := "/api/upload",
    body := Body.multipart (uploadForm filePath tableName createTable) }

/-- The request issued by `previewExcel` (preview row count defaults to
10 when omitted, and is rendered by `toString`). -/
def previewRequest (filePath : String) (rows : Option Nat) : HttpRequest :=
  { method := Method.post, path := "/api/upload/preview",
    body := Body.multipart
      [⟨"file", FormValue.fileStream filePath⟩,
       ⟨"rows", FormValue.text (toString (rows.getD 10))⟩] }

/-- The request issued by `query`: a POST to `/api/execute` whose JSON
body holds the action name `query` and a parameter object carrying the
SQL string. -/
def queryRequest (sql : String) : HttpRequest :=
  { method := Method.post, path := "/api/execute",
    body := Body.jsonBody (Json.obj
      [("action", Json.str "query"),
       ("params", Json.obj [("sql", Json.str sql)])]) }

/-- The request issued by `getTables`. -/
def tablesRequest : HttpRequest :=
  { method := Method.get, path := "/api/tables", body := Body.empty }

/-- The request issued by `getTableSchema`. -/
def schemaRequest (tableName : String) : HttpRequest :=
  { method := Method.get, path := "/api/tables/" ++ tableName ++ "/schema",
    body := Body.empty }

/-- The request issued by `createLLMConfig`. -/
def llmConfigRequest (config : Json) : HttpRequest :=
  { method := Method.post, path := "/api/llm/config",
    body := Body.jsonBody config }

/-- `healthCheck()`: await the GET, return `response.data`. Result:
the value returned (or error thrown), the final receiver object (no
assignment to `this` occurs in the body), and the requests issued. -/
def DorisAgent.healthCheck (t : Transport) (self : DorisAgent) :
    Except JsError Json × DorisAgent × List HttpRequest :=
  ((t healthRequest).map (fun r => r.data), self, [healthRequest])

/-- `ask(question, apiKey, model)`: await the POST of the payload,
return `response.data`. -/
def DorisAgent.ask (t : Transport) (self : DorisAgent) (question : String)
    (apiKey : Option String) (modelArg : Option String) :
    Except JsError Json × DorisAgent × List HttpRequest :=
  ((t (askRequest self question apiKey modelArg)).map (fun r => r.data),
   self, [askRequest self question apiKey modelArg])

/-- `uploadExcel(filePath, tableName, createTable)`. -/
def DorisAgent.uploadExcel (t : Transport) (self : DorisAgent)
    (filePath tableName : String) (createTable : Option Bool) :
    Except JsError Json × DorisAgent × List HttpRequest :=
  ((t (uploadRequest filePath tableName createTable)).map (fun r => r.data),
   self, [uploadRequest filePath tableName createTable])

/-- `previewExcel(filePath, rows)`. -/
def DorisAgent.previewExcel (t : Transport) (self : DorisAgent)
    (filePath : String) (rows : Option Nat) :
    Except JsError Json × DorisAgent × List HttpRequest :=
  ((t (previewRequest filePath rows)).map (fun r => r.data),
   self, [previewRequest filePath rows])

/-- `query(sql)`. -/
def DorisAgent.query (t : Transport) (self : DorisAgent) (sql : String) :
    Except JsError Json × DorisAgent × List HttpRequest :=
  ((t (queryRequest sql)).map (fun r => r.data), self, [queryRequest sql])

/-- `getTables()`: returns `response.data.tables`, a property access
that yields `undefined` (here `none`) when the field is absent. -/
def DorisAgent.getTables (t : Transport) (self : DorisAgent) :
    Except JsError (Option Json) × DorisAgent × List HttpRequest :=
  ((t tablesRequest).map (fun r => r.data.getField "tables"),
   self, [tablesRequest])

/-- `getTableSchema(tableName)`: returns `response.data.schema`. -/
def DorisAgent.getTableSchema (t : Transport) (self : DorisAgent)
    (tableName : String) :
    Except JsError (Option Json) × DorisAgent × List HttpRequest :=
  ((t (schemaRequest tableName)).map (fun r => r.data.getField "schema"),
   self, [schemaRequest tableName])

/-- `createLLMConfig(config)`. -/
def DorisAgent.createLLMConfig (t : Transport) (self : DorisAgent)
    (config : Json) : Except JsError Json × DorisAgent × List HttpRequest :=
  ((t (llmConfigRequest config)).map (fun r => r.data),
   self, [llmConfigRequest config])

/-- A concrete transport on which every request fails with a connection
refusal, for exercising the propagation theorems. -/
def refusedError : JsError :=
  { kind := "TransportError", message := "connection refused" }

/-- The transport that rejects every request with `refusedError`. -/
def failingTransport : Transport := fun _ => Except.error refusedError

/-- A transport whose every response is 2xx with body
`(success = true)` and nothing else: no `tables` and no `schema` field. -/
def bareOkTransport : Transport :=
  fun _ => Except.ok { data := Json.obj [("success", Json.bool true)] }

/-- The character-level replace removes the last character exactly when
it is a slash and otherwise returns its input. -/
theorem jsReplaceTrailingSlash_eq (l : List Char) :
    jsReplaceTrailingSlash l =
      if l.getLast? = some '/' then l.dropLast else l := by
  induction l with
  | nil => simp [jsReplaceTrailingSlash]
  | cons c cs ih =>
    cases cs with
    | nil =>
      by_cases h : c = '/' <;> simp [jsReplaceTrailingSlash, h]
    | cons c2 cs2 =>
      rw [jsReplaceTrailingSlash, ih, List.getLast?_cons_cons]
      by_cases h : (c2 :: cs2).getLast? = some '/' <;>
        simp [h, List.dropLast_cons₂]

/-- C8: for every base URL string passed to the constructor, the stored
base URL equals the input with its trailing slash stripped (inputs not
ending in a slash are stored unchanged), and the configured request
timeout defaults to 60 seconds (60000 milliseconds). -/
theorem C8_construct_stores_stripped_url (b : String) (k : Option String) :
    ∃ a : DorisAgent, (DorisAgent.construct b k).1 = Except.ok a ∧
      a.baseUrl.data =
        (if b.data.getLast? = some '/' then b.data.dropLast else b.data) ∧
      a.client.timeout = 60 * 1000 :=
  ⟨DorisAgent.mkAgent b k, rfl, jsReplaceTrailingSlash_eq b.data, rfl⟩

/-- C4: for every configuration, constructing the client issues no HTTP
request, and construction always returns an agent — it never fails, so
in particular it fails on nothing other than a malformed base URL. -/
theorem C4_construct_pure (b : String) (k : Option String) :
    (DorisAgent.construct b k).2 = [] ∧
    ∃ a : DorisAgent, (DorisAgent.construct b k).1 = Except.ok a :=
  ⟨rfl, DorisAgent.mkAgent b k, rfl⟩

/-- C5: for every SQL string, the `query` operation sends exactly one
request: a POST to `/api/execute` whose JSON body is the object with
action name `"query"` and a parameter object carrying the SQL string. -/
theorem C5_query_request (t : Transport) (a : DorisAgent) (sql : String) :
    (DorisAgent.query t a sql).2.2 =
      [{ method := Method.post, path := "/api/execute",
         body := Body.jsonBody (Json.obj
           [("action", Json.str "query"),
            ("params", Json.obj [("sql", Json.str sql)])]) }] := rfl

/-- C6: `uploadExcel` sends one multipart POST to `/api/upload` whose
form has exactly three parts — one streamed file part, a `table_name`
text field, and a `create_table` text field holding the string form of
the create-table flag; an omitted flag defaults to `true`, rendered as
the string `"true"`. -/
theorem C6_upload_form (t : Transport) (a : DorisAgent)
    (fp tn : String) (ct : Option Bool) :
    (DorisAgent.uploadExcel t a fp tn ct).2.2 =
      [{ method := Method.post, path := "/api/upload",
         body := Body.multipart (uploadForm fp tn ct) }] ∧
    uploadForm fp tn ct =
      [⟨"file", FormValue.fileStream fp⟩,
       ⟨"table_name", FormValue.text tn⟩,
       ⟨"create_table", FormValue.text (jsBoolToString (ct.getD true))⟩] ∧
    (uploadForm fp tn ct).length = 3 ∧
    ((uploadForm fp tn ct).filter FormPart.isFile).length = 1 ∧
    uploadForm fp tn none =
      [⟨"file", FormValue.fileStream fp⟩,
       ⟨"table_name", FormValue.text tn⟩,
       ⟨"create_table", FormValue.text "true"⟩] :=
  ⟨rfl, rfl, rfl, rfl, rfl⟩

/-- C7: every operation of the client returns the receiver object
unchanged: the base URL, the API key and the underlying axios client
are exactly those of the agent the operation was invoked on, for every
transport behaviour and every argument. -/
theorem C7_immutable (t : Transport) (a : DorisAgent)
    (q fp tn sql tbl : String) (k m : Option String) (ct : Option Bool)
    (rows : Option Nat) (cfg : Json) :
    (DorisAgent.healthCheck t a).2.1 = a ∧
    (DorisAgent.ask t a q k m).2.1 = a ∧
    (DorisAgent.uploadExcel t a fp tn ct).2.1 = a ∧
    (DorisAgent.previewExcel t a fp rows).2.1 = a ∧
    (DorisAgent.query t a sql).2.1 = a ∧
    (DorisAgent.getTables t a).2.1 = a ∧
    (DorisAgent.getTableSchema t a tbl).2.1 = a ∧
    (DorisAgent.createLLMConfig t a cfg).2.1 = a :=
  ⟨rfl, rfl, rfl, rfl, rfl, rfl, rfl, rfl⟩

/-- C1 (amended): the payload of `ask` includes the `api_key` and
`model` fields exactly when a truthy API key is available — per-call if
truthy, else the constructor default; a model argument alone never
causes inclusion of either field. -/
theorem C1_ask_fields_iff_key (a : DorisAgent) (q : String)
    (k m : Option String) :
    (a.askPayload q k m).hasField "api_key" = jsTruthy (jsOr k a.apiKey) ∧
    (a.askPayload q k m).hasField "model" = jsTruthy (jsOr k a.apiKey) := by
  unfold DorisAgent.askPayload
  cases h : jsOr k a.apiKey with
  | none => simp [jsTruthy, Json.hasField, Json.getField, lookupField]
  | some s =>
    by_cases hs : s = ""
    · subst hs
      simp [jsTruthy, Json.hasField, Json.getField, lookupField]
    · simp [hs, jsTruthy, Json.hasField, Json.getField, lookupField]

/-- C1 counterexample: a call of `ask` on an agent with no constructor
key, no per-call key, but an explicitly supplied model argument.  A
model is supplied, yet the outgoing payload contains neither `api_key`
nor `model`, refuting the claim that either one being supplied makes
both fields appear. -/
theorem C1_counterexample_model_alone :
    (some "deepseek-chat" : Option String).isSome = true ∧
    ((DorisAgent.mkAgent "http://localhost:8018" none).askPayload
        "show tables" none (some "deepseek-chat")).hasField "api_key" = false ∧
    ((DorisAgent.mkAgent "http://localhost:8018" none).askPayload
        "show tables" none (some "deepseek-chat")).hasField "model" = false :=
  ⟨rfl, rfl, rfl⟩

/-- C2 (amended): whenever a truthy API key is available (per-call or
constructor default) and the caller omits the model argument, the
outgoing payload of `ask` does include a `model` field and its value is
the default `"deepseek-chat"` hardcoded in the signature of `ask`. -/
theorem C2_default_model_sent (a : DorisAgent) (q : String)
    (k : Option String) (h : jsTruthy (jsOr k a.apiKey) = true) :
    (a.askPayload q k none).getField "model" = some (Json.str defaultModel) := by
  unfold DorisAgent.askPayload
  cases hj : jsOr k a.apiKey with
  | none => rw [hj] at h; exact absurd h (by simp [jsTruthy])
  | some s =>
    rw [hj] at h
    simp only [jsTruthy] at h
    simp [h, Json.getField, lookupField, defaultModel]

/-- Witness for C2: a constructor key and an omitted model argument put
`model = "deepseek-chat"` into the payload. -/
theorem C2_default_model_sent_witness :
    ((DorisAgent.mkAgent "http://localhost:8018" (some "sk-key")).askPayload
        "show tables" none none).getField "model" =
      some (Json.str defaultModel) :=
  C2_default_model_sent
    (DorisAgent.mkAgent "http://localhost:8018" (some "sk-key"))
    "show tables" none rfl

/-- C2 counterexample: with the constructor key of the example program
and no model argument, the payload contains a `model` field whose value
is the baked-in name `"deepseek-chat"`, refuting the claim that no
model field is sent and no model name is baked into the client. -/
theorem C2_counterexample_model_baked_in :
    ((DorisAgent.mkAgent "http://localhost:8018"
        (some "sk-748638f482f74b7392a6dafd89bdd307")).askPayload
        "show tables" none none).getField "model" =
      some (Json.str "deepseek-chat") := rfl

/-- C9: a truthy (non-empty) per-call API key overrides the constructor
key in the payload of `ask`; a per-call key that is absent or the empty
string yields exactly the payload of the absent case, falling back to
the constructor key — so an empty-string override cannot suppress the
default key. -/
theorem C9_key_fallback (a : DorisAgent) (q : String) (m : Option String)
    (s dk : String) :
    (s ≠ "" →
      (a.askPayload q (some s) m).getField "api_key" = some (Json.str s)) ∧
    a.askPayload q none m = a.askPayload q (some "") m ∧
    (a.apiKey = some dk → dk ≠ "" →
      (a.askPayload q (some "") m).getField "api_key" = some (Json.str dk)) := by
  refine ⟨?_, rfl, ?_⟩
  · intro hs
    unfold DorisAgent.askPayload
    have hk : jsOr (some s) a.apiKey = some s := by
      simp [jsOr, jsTruthy, hs]
    rw [hk]
    simp [hs, Json.getField, lookupField]
  · intro hd hdk
    unfold DorisAgent.askPayload
    have hk : jsOr (some "") a.apiKey = some dk := by
      simp [jsOr, jsTruthy, hd]
    rw [hk]
    simp [hdk, Json.getField, lookupField]

/-- Witness for C9: with constructor key `sk-default`, a per-call key
`sk-percall` wins; an empty-string per-call key behaves like no
per-call key and the payload carries `sk-default`. -/
theorem C9_key_fallback_witness :
    ((DorisAgent.mkAgent "http://localhost:8018" (some "sk-default")).askPayload
        "q1" (some "sk-percall") none).getField "api_key" =
      some (Json.str "sk-percall") ∧
    (DorisAgent.mkAgent "http://localhost:8018" (some "sk-default")).askPayload
        "q1" none none =
      (DorisAgent.mkAgent "http://localhost:8018" (some "sk-default")).askPayload
        "q1" (some "") none ∧
    ((DorisAgent.mkAgent "http://localhost:8018" (some "sk-default")).askPayload
        "q1" (some "") none).getField "api_key" =
      some (Json.str "sk-default") := by
  have h := C9_key_fallback
    (DorisAgent.mkAgent "http://localhost:8018" (some "sk-default"))
    "q1" none "sk-percall" "sk-default"
  exact ⟨h.1 (by decide), h.2.1, h.2.2 rfl (by decide)⟩

/-- C3: for every operation of the client, when the transport rejects
the issued request with an error value, the operation returns exactly
that error value — kind and message unmodified; no operation catches or
rewraps a failure. -/
theorem C3_errors_propagate (t : Transport) (a : DorisAgent) (e : JsError)
    (q fp tn sql tbl : String) (k m : Option String) (ct : Option Bool)
    (rows : Option Nat) (cfg : Json) :
    (t healthRequest = Except.error e →
      (DorisAgent.healthCheck t a).1 = Except.error e) ∧
    (t (askRequest a q k m) = Except.error e →
      (DorisAgent.ask t a q k m).1 = Except.error e) ∧
    (t (uploadRequest fp tn ct) = Except.error e →
      (DorisAgent.uploadExcel t a fp tn ct).1 = Except.error e) ∧
    (t (previewRequest fp rows) = Except.error e →
      (DorisAgent.previewExcel t a fp rows).1 = Except.error e) ∧
    (t (queryRequest sql) = Except.error e →
      (DorisAgent.query t a sql).1 = Except.error e) ∧
    (t tablesRequest = Except.error e →
      (DorisAgent.getTables t a).1 = Except.error e) ∧
    (t (schemaRequest tbl) = Except.error e →
      (DorisAgent.getTableSchema t a tbl).1 = Except.error e) ∧
    (t (llmConfigRequest cfg) = Except.error e →
      (DorisAgent.createLLMConfig t a cfg).1 = Except.error e) := by
  refine ⟨?_, ?_, ?_, ?_, ?_, ?_, ?_, ?_⟩ <;> intro h <;>
    simp [DorisAgent.healthCheck, DorisAgent.ask, DorisAgent.uploadExcel,
          DorisAgent.previewExcel, DorisAgent.query, DorisAgent.getTables,
          DorisAgent.getTableSchema, DorisAgent.createLLMConfig, h,
          Except.map]

/-- Witness for C3: on the transport that refuses every connection,
every operation of a concrete agent returns exactly the refusal
error. -/
theorem C3_errors_propagate_witness :
    (DorisAgent.healthCheck failingTransport
        (DorisAgent.mkAgent "http://localhost:8018" none)).1 =
      Except.error refusedError ∧
    (DorisAgent.ask failingTransport
        (DorisAgent.mkAgent "http://localhost:8018" none)
        "q" none none).1 = Except.error refusedError ∧
    (DorisAgent.uploadExcel failingTransport
        (DorisAgent.mkAgent "http://localhost:8018" none)
        "data.xlsx" "tbl" none).1 = Except.error refusedError ∧
    (DorisAgent.previewExcel failingTransport
        (DorisAgent.mkAgent "http://localhost:8018" none)
        "data.xlsx" none).1 = Except.error refusedError ∧
    (DorisAgent.query failingTransport
        (DorisAgent.mkAgent "http://localhost:8018" none)
        "SELECT 1").1 = Except.error refusedError ∧
    (DorisAgent.getTables failingTransport
        (DorisAgent.mkAgent "http://localhost:8018" none)).1 =
      Except.error refusedError ∧
    (DorisAgent.getTableSchema failingTransport
        (DorisAgent.mkAgent "http://localhost:8018" none)
        "tbl2").1 = Except.error refusedError ∧
    (DorisAgent.createLLMConfig failingTransport
        (DorisAgent.mkAgent "http://localhost:8018" none)
        Json.null).1 = Except.error refusedError := by
  have h := C3_errors_propagate failingTransport
    (DorisAgent.mkAgent "http://localhost:8018" none) refusedError
    "q" "data.xlsx" "tbl" "SELECT 1" "tbl2" none none none none Json.null
  exact ⟨h.1 rfl, h.2.1 rfl, h.2.2.1 rfl, h.2.2.2.1 rfl, h.2.2.2.2.1 rfl,
         h.2.2.2.2.2.1 rfl, h.2.2.2.2.2.2.1 rfl, h.2.2.2.2.2.2.2 rfl⟩

/-- C10: when the transport answers a 2xx response whose JSON object
body lacks the `tables` (respectively `schema`) field, `getTables`
(respectively `getTableSchema`) succeeds with the JavaScript value
`undefined` (modelled `none`) instead of raising any error: no
validation of the successful response body happens. -/
theorem C10_missing_fields_undefined (t : Transport) (a : DorisAgent)
    (tbl : String) (fs gs : List (String × Json)) :
    (t tablesRequest = Except.ok { data := Json.obj fs } →
      lookupField fs "tables" = none →
      (DorisAgent.getTables t a).1 = Except.ok none) ∧
    (t (schemaRequest tbl) = Except.ok { data := Json.obj gs } →
      lookupField gs "schema" = none →
      (DorisAgent.getTableSchema t a tbl).1 = Except.ok none) := by
  constructor <;> intro h hmiss <;>
    simp [DorisAgent.getTables, DorisAgent.getTableSchema, h, Except.map,
          Json.getField, hmiss]

/-- Witness for C10: on a transport whose every body is the object
holding only a `success` flag, both lookups return `undefined` inside a
successful result. -/
theorem C10_missing_fields_undefined_witness :
    (DorisAgent.getTables bareOkTransport
        (DorisAgent.mkAgent "http://localhost:8018" none)).1 =
      Except.ok none ∧
    (DorisAgent.getTableSchema bareOkTransport
        (DorisAgent.mkAgent "http://localhost:8018" none) "ghost").1 =
      Except.ok none := by
  have h := C10_missing_fields_undefined bareOkTransport
    (DorisAgent.mkAgent "http://localhost:8018" none) "ghost"
    [("success", Json.bool true)] [("success", Json.bool true)]
  exact ⟨h.1 rfl rfl, h.2 rfl rfl⟩
